import Mathlib

/-!
Shallow embedding of the PyAthena SQLAlchemy dialect
(`pyathena/sqlalchemy_athena.py`): the Athena DDL compiler (CREATE EXTERNAL
TABLE rendering, partition-column separation, location and compression
resolution, TBLPROPERTIES synthesis), the type compiler, the reflection type
mapping, the catalog not-found error classifier, and the table-existence
check.  Python strings become `String`, Python `dict`s become insertion-ordered
association lists, raised exceptions become `Except`, and Python truthiness
(`None` and `""`/`{}` are falsy) is modelled explicitly.
-/

set_option maxHeartbeats 1000000

namespace PyAthena

/-- Fuel-indexed scan for `pyReplace`: at each position, if the (nonempty)
pattern matches, emit the replacement and skip the pattern; otherwise keep
the character.  Matches Python's left-to-right non-overlapping
`str.replace`. -/
def pyReplaceGo (pat repl : List Char) : Nat → List Char → List Char
  | 0, l => l
  | _ + 1, [] => []
  | fuel + 1, c :: rest =>
    if pat.isPrefixOf (c :: rest) then
      repl ++ pyReplaceGo pat repl fuel (rest.drop (pat.length - 1))
    else
      c :: pyReplaceGo pat repl fuel rest

/-- Python `s.replace(pat, repl)` for a nonempty pattern (all patterns used
by this dialect are single characters). -/
def pyReplace (s pat repl : String) : String :=
  String.mk (pyReplaceGo pat.data repl.data s.data.length s.data)

/-- Python `str.lower` (ASCII, which is all the dialect lowercases). -/
def pyToLower (s : String) : String := String.mk (s.data.map Char.toLower)

/-- Python `str.upper` (ASCII, which is all the dialect uppercases). -/
def pyToUpper (s : String) : String := String.mk (s.data.map Char.toUpper)

/-- Python `sep.join(parts)`. -/
def joinWith (sep : String) : List String → String
  | [] => ""
  | [x] => x
  | x :: y :: rest => x ++ sep ++ joinWith sep (y :: rest)

/-- Python truthiness for an optional string: `None` and `""` are falsy.
Returns the string when truthy. -/
def truthyStr : Option String → Option String
  | none => none
  | some s => if s = "" then none else some s

/-- Python truthiness for an optional length (`if type_.length:`):
`None` and `0` are falsy. -/
def truthyLen : Option Nat → Option Nat
  | none => none
  | some n => if n = 0 then none else some n

/-- Python `f"{x}"` on an optional string: `None` renders as `"None"`. -/
def pyNoneStr : Option String → String
  | none => "None"
  | some s => s

/-- Errors a compilation can raise: `sqlalchemy.exc.CompileError` with a
message, or an uncontrolled Python `KeyError` carrying the missing key
(raised by the bare dict lookup `COMPRESSION_TBLPROPERTY_KEY[...]`). -/
inductive CompileErr where
  | compileError (msg : String)
  | keyError (key : String)
  deriving DecidableEq, Repr

/-! ## Generic SQL types and `AthenaTypeCompiler` -/

/-- The generic SQLAlchemy types handled by `AthenaTypeCompiler`.  Parameters
mirror the fields the compiler reads: precision/scale for decimals, length for
character types, the element type for arrays. -/
inductive GenType where
  | REAL
  | NUMERIC (precision scale : Option Nat)
  | DECIMAL (precision scale : Option Nat)
  | INTEGER
  | SMALLINT
  | BIGINT
  | TIMESTAMP
  | DATETIME
  | DATE
  | TIME
  | CLOB
  | NCLOB
  | CHAR (length : Option Nat)
  | NCHAR (length : Option Nat)
  | VARCHAR (length : Option Nat)
  | NVARCHAR (length : Option Nat)
  | TEXT
  | BLOB
  | BINARY
  | VARBINARY
  | BOOLEAN
  deriving DecidableEq, Repr

/-- SQLAlchemy's `GenericTypeCompiler._render_string_type` (the library helper
`visit_CHAR`/`visit_VARCHAR` delegate to): the keyword, followed by
`(length)` when a truthy length is set.  The collation suffix is not modelled
(no descriptor in this dialect carries one). -/
def _render_string_type (length : Option Nat) (name : String) : String :=
  match truthyLen length with
  | some n => name ++ "(" ++ toString n ++ ")"
  | none => name

/-- The message `visit_VARCHAR`/`visit_NVARCHAR` raise for a column-attached
VARCHAR with no length. -/
def varcharNoLengthMsg (columnName : String) : String :=
  "Column \"" ++ columnName ++ "\" is of type \"String\" but has no length. " ++
  "Athena does not support \"String\" (SQL type VARCHAR) without length. " ++
  "You must either provide one or use the type \"Text\" (SQL type STRING)"

/-- `AthenaTypeCompiler.visit_DECIMAL` (also the target of `visit_NUMERIC`):
zero, one or two rendered parameters depending on which are set. -/
def visit_DECIMAL (p s : Option Nat) : String :=
  match p with
  | none => "DECIMAL"
  | some prec =>
    match s with
    | none => "DECIMAL(" ++ toString prec ++ ")"
    | some sc => "DECIMAL(" ++ toString prec ++ ", " ++ toString sc ++ ")"

/-- `AthenaTypeCompiler.visit_VARCHAR` (and the identical `visit_NVARCHAR`):
a column-attached VARCHAR with a falsy length is a hard compile error. -/
def visit_VARCHAR (ctx : Option String) (len : Option Nat) : Except CompileErr String :=
  match ctx with
  | some columnName =>
    if (truthyLen len).isNone then .error (.compileError (varcharNoLengthMsg columnName))
    else .ok (_render_string_type len "VARCHAR")
  | none => .ok (_render_string_type len "VARCHAR")

/-- `AthenaTypeCompiler.process(type_, type_expression=...)`.  `ctx` is
`some columnName` when the type expression is a `Column` (the only fact the
compiler extracts from it is the column's name, for the VARCHAR error), and
`none` in a generic expression context.  `visit_NUMERIC`/`visit_DATETIME`/
`visit_CLOB`/`visit_NCLOB`/`visit_BLOB`/`visit_VARBINARY` delegate to
`visit_DECIMAL`/`visit_TIMESTAMP`/`visit_BINARY` in the source. -/
def typeProcess (ctx : Option String) : GenType → Except CompileErr String
  | .REAL => .ok "DOUBLE"
  | .NUMERIC p s => .ok (visit_DECIMAL p s)
  | .DECIMAL p s => .ok (visit_DECIMAL p s)
  | .INTEGER => if ctx.isSome then .ok "INT" else .ok "INTEGER"
  | .SMALLINT => .ok "SMALLINT"
  | .BIGINT => .ok "BIGINT"
  | .TIMESTAMP => .ok "TIMESTAMP"
  | .DATETIME => .ok "TIMESTAMP"
  | .DATE => .ok "DATE"
  | .TIME => .error (.compileError "Data type `TIME` is not supported")
  | .CLOB => .ok "BINARY"
  | .NCLOB => .ok "BINARY"
  | .CHAR len => .ok (_render_string_type len "CHAR")
  | .NCHAR len => .ok (_render_string_type len "CHAR")
  | .VARCHAR len => visit_VARCHAR ctx len
  | .NVARCHAR len => visit_VARCHAR ctx len
  | .TEXT => .ok "STRING"
  | .BLOB => .ok "BINARY"
  | .BINARY => .ok "BINARY"
  | .VARBINARY => .ok "BINARY"
  | .BOOLEAN => .ok "BOOLEAN"

/-! ## Descriptors -/

/-- A column as the DDL compiler sees it: name, generic type, optional
comment, and the `awsathena_partition` dialect option. -/
structure AthenaColumn where
  name : String
  type : GenType
  comment : Option String
  partition : Bool
  deriving DecidableEq, Repr

/-- The per-table `awsathena` dialect options declared in
`AthenaDialect.construct_arguments` (each defaults to `None`).
`tblproperties` is an insertion-ordered string-to-string mapping. -/
structure TableOpts where
  compression : Option String
  location : Option String
  row_format : Option String
  stored_as : Option String
  tblproperties : Option (List (String × String))
  deriving DecidableEq, Repr

/-- The table descriptor the DDL compiler reads: name, optional schema,
columns in declaration order, optional comment, dialect options. -/
structure AthenaTable where
  name : String
  schema : Option String
  columns : List AthenaColumn
  comment : Option String
  opts : TableOpts
  deriving DecidableEq, Repr

/-- The slice of a live `pyathena` connection the DDL compiler reaches into:
`_kwargs["s3_dir"]` (when the key is present), `s3_staging_dir`,
`schema_name`, and `_kwargs.get("compression")`. -/
structure Connection where
  s3_dir : Option String
  s3_staging_dir : Option String
  schema_name : String
  compression : Option String
  deriving DecidableEq, Repr

/-! ## Identifier quoting and escaping -/

/-- The DDL identifier preparer (`AthenaDDLIdentifierPreparer`): backtick
quoting with escape-by-doubling.  The library's quote-only-when-required
heuristic is not modelled; identifiers are always quoted here (no claim under
verification depends on the conditional part). -/
def quoteIdent (name : String) : String :=
  "`" ++ pyReplace name "`" "``" ++ "`"

/-- `preparer.format_table`: schema-qualified quoted table name. -/
def formatTable (t : AthenaTable) : String :=
  match truthyStr t.schema with
  | some s => quoteIdent s ++ "." ++ quoteIdent t.name
  | none => quoteIdent t.name

/-- `AthenaDDLCompiler._escape_comment`: double backslashes, escape single
quotes, double percent signs (the dialect's paramstyle is `pyformat`, so
`_double_percents` is true), and wrap in single quotes. -/
def _escape_comment (value : String) : String :=
  "'" ++ pyReplace (pyReplace (pyReplace value "\\" "\\\\") "'" "\\'") "%" "%%" ++ "'"

/-! ## Column specs -/

/-- `AthenaDDLCompiler.get_column_specification`: quoted name, a space, the
compiled type (column context), and an optional escaped COMMENT. -/
def get_column_specification (c : AthenaColumn) : Except CompileErr String :=
  match typeProcess (some c.name) c.type with
  | .error e => .error e
  | .ok ty =>
    let comment :=
      match truthyStr c.comment with
      | some cm => " COMMENT " ++ _escape_comment cm
      | none => ""
    .ok (quoteIdent c.name ++ " " ++ ty ++ comment)

/-- The wrapping `_get_columns_specs` applies to a caught
`exc.CompileError` (`"(in table '{0}', column '{1}'): {2}"`); any other
exception propagates unchanged. -/
def wrapColumnError (tableName columnName : String) : CompileErr → CompileErr
  | .compileError m =>
    .compileError ("(in table '" ++ tableName ++ "', column '" ++ columnName ++ "'): " ++ m)
  | e => e

/-- The accumulator loop of `AthenaDDLCompiler._get_columns_specs`: `text`
and `separator` thread through the iteration; columns whose partition flag
differs from `partitions` are skipped (`continue`). -/
def _get_columns_specs_go (tableName : String) (partitions : Bool)
    (text sep : String) : List AthenaColumn → Except CompileErr String
  | [] => .ok text
  | c :: rest =>
    if c.partition != partitions then
      _get_columns_specs_go tableName partitions text sep rest
    else
      match get_column_specification c with
      | .ok processed =>
        _get_columns_specs_go tableName partitions (text ++ sep ++ "\t" ++ processed) ", \n" rest
      | .error e => .error (wrapColumnError tableName c.name e)

/-- `AthenaDDLCompiler._get_columns_specs(create, partitions)`. -/
def _get_columns_specs (tableName : String) (cols : List AthenaColumn)
    (partitions : Bool) : Except CompileErr String :=
  _get_columns_specs_go tableName partitions "" "\n" cols

/-- The same rendering loop without the partition filter: joins the specs of
exactly the given columns, in order.  Used to state what `_get_columns_specs`
renders for each group. -/
def renderSpecsGo (tableName : String) (text sep : String) :
    List AthenaColumn → Except CompileErr String
  | [] => .ok text
  | c :: rest =>
    match get_column_specification c with
    | .ok processed => renderSpecsGo tableName (text ++ sep ++ "\t" ++ processed) ", \n" rest
    | .error e => .error (wrapColumnError tableName c.name e)

/-- Sequential rendering of a column list in declaration order. -/
def renderSpecs (tableName : String) (cols : List AthenaColumn) : Except CompileErr String :=
  renderSpecsGo tableName "" "\n" cols

/-! ## TBLPROPERTIES -/

/-- Python dict assignment `d[k] = v` on an insertion-ordered association
list: update in place when the key is present, append otherwise. -/
def dictInsert (l : List (String × String)) (k v : String) : List (String × String) :=
  if l.any (fun p => p.1 = k) then
    l.map (fun p => if p.1 = k then (k, v) else p)
  else
    l ++ [(k, v)]

/-- The module-level `COMPRESSION_TBLPROPERTY_KEY` dict. -/
def COMPRESSION_TBLPROPERTY_KEY : List (String × String) :=
  [("textfile", "compressionType"), ("parquet", "parquet.compress"), ("json", "compressionType")]

/-- `_format_tblproperties`: renders the mapping in insertion order. -/
def _format_tblproperties (properties : List (String × String)) : String :=
  let s := joinWith ",\n    "
    (properties.map (fun p => "'" ++ p.1 ++ "'='" ++ p.2 ++ "'"))
  "TBLPROPERTIES (\n    " ++ s ++ "\n)"

/-! ## Location, compression, post_create_table -/

/-- The location-resolution failure branch of `post_create_table`
(lines 318-328): with a live connection the message names the
connection-string parameters, without one it names the dialect keyword. -/
def locationError (conn : Option Connection) : Except CompileErr String :=
  match conn with
  | some _ =>
    .error (.compileError
      "`s3_dir` or `s3_staging_dir` parameter is required in the connection string.")
  | none =>
    .error (.compileError
      "You need to specify the storage location for the table using the `awsathena_location` dialect keyword argument")

/-- Lines 305-329 of `post_create_table`: resolve the LOCATION value.
Precedence: truthy per-table `location` option (trailing slash appended when
the last character is not `/`); else, with a live connection, the f-string
`f"{base_location}{schema}/{table.name}/"` where `base_location` is
`_kwargs["s3_dir"]` when present else `s3_staging_dir` (a Python `None`
staging dir renders as the literal `"None"`); else fail. -/
def resolveLocation (t : AthenaTable) (conn : Option Connection) : Except CompileErr String :=
  let location : Option String :=
    match truthyStr t.opts.location with
    | some loc => some (loc ++ (if loc.data.getLast? ≠ some '/' then "/" else ""))
    | none =>
      match conn with
      | some rc =>
        let base :=
          match rc.s3_dir with
          | some d => d
          | none => pyNoneStr rc.s3_staging_dir
        let sch :=
          match truthyStr t.schema with
          | some s => s
          | none => rc.schema_name
        some (base ++ sch ++ "/" ++ t.name ++ "/")
      | none => none
  match location with
  | some l => if l = "" then locationError conn else .ok l
  | none => locationError conn

/-- Lines 332-338: resolve the compression codec - truthy per-table option,
else the connection's `_kwargs.get("compression")`. -/
def resolveCompression (t : AthenaTable) (conn : Option Connection) : Option String :=
  match truthyStr t.opts.compression with
  | some c => some c
  | none =>
    match conn with
    | some rc => rc.compression
    | none => none

/-- Lines 339-341: when the resolved codec is truthy, look the lowercased
storage format up in `COMPRESSION_TBLPROPERTY_KEY` (a bare dict indexing -
an absent key raises `KeyError`) and assign `key = codec.upper()` into the
properties dict. -/
def resolveProps (props : List (String × String)) (stored_as : String)
    (compression : Option String) : Except CompileErr (List (String × String)) :=
  match truthyStr compression with
  | some c =>
    match COMPRESSION_TBLPROPERTY_KEY.lookup (pyToLower stored_as) with
    | some key => .ok (dictInsert props key (pyToUpper c))
    | none => .error (.keyError (pyToLower stored_as))
  | none => .ok props

/-- The text `post_create_table` accumulates, given the already-resolved
pieces: optional COMMENT, optional PARTITIONED BY, optional ROW FORMAT,
STORED AS, LOCATION, optional TBLPROPERTIES. -/
def buildPostText (t : AthenaTable) (partitionSpecs location stored_as : String)
    (props : List (String × String)) : String :=
  (match truthyStr t.comment with
   | some c => "COMMENT " ++ _escape_comment c ++ "\n"
   | none => "") ++
  (if partitionSpecs ≠ "" then "PARTITIONED BY (" ++ partitionSpecs ++ "\n)\n" else "") ++
  (match truthyStr t.opts.row_format with
   | some rf => "ROW FORMAT " ++ rf ++ "\n"
   | none => "") ++
  "STORED AS " ++ stored_as ++ "\n" ++
  "LOCATION '" ++ location ++ "'\n" ++
  (if props ≠ [] then _format_tblproperties props ++ "\n" else "")

/-- The caller-visible `tblproperties` mapping after `post_create_table`:
`tblproperties = dialect_opts["tblproperties"] or dict()` aliases the
caller's dict exactly when the option is a truthy (nonempty) dict, so only
then do in-place assignments become visible to the caller. -/
def callerProps (orig : Option (List (String × String)))
    (final : List (String × String)) : Option (List (String × String)) :=
  match orig with
  | some l => if l ≠ [] then some final else some l
  | none => none

/-- Lines 300-303: the resolved storage format - the truthy `stored_as`
option, else the `"PARQUET"` default. -/
def storedAsOf (t : AthenaTable) : String :=
  match truthyStr t.opts.stored_as with
  | some s => s
  | none => "PARQUET"

/-- `AthenaDDLCompiler.post_create_table`.  Returns the rendered trailing
text together with the caller-visible `tblproperties` mapping afterwards
(modelling the in-place dict mutation of line 341).  Failure order follows
the source: partition column specs are rendered before the location is
resolved, which happens before the compression key lookup. -/
def post_create_table (t : AthenaTable) (conn : Option Connection) :
    Except CompileErr (String × Option (List (String × String))) :=
  match _get_columns_specs t.name t.columns true with
  | .error e => .error e
  | .ok partitionSpecs =>
    match resolveLocation t conn with
    | .error e => .error e
    | .ok location =>
      match resolveProps (t.opts.tblproperties.getD []) (storedAsOf t) (resolveCompression t conn) with
      | .error e => .error e
      | .ok props1 =>
        .ok (buildPostText t partitionSpecs location (storedAsOf t) props1,
             callerProps t.opts.tblproperties props1)

/-- `AthenaDDLCompiler.visit_create_table`: header, main column list
(non-partition columns), then the post-create text. -/
def visit_create_table (t : AthenaTable) (conn : Option Connection) :
    Except CompileErr (String × Option (List (String × String))) :=
  match _get_columns_specs t.name t.columns false with
  | .error e => .error e
  | .ok mainSpecs =>
    match post_create_table t conn with
    | .error e => .error e
    | .ok (post, props) =>
      .ok ("\nCREATE EXTERNAL " ++ "TABLE " ++ formatTable t ++ " (" ++
           mainSpecs ++ "\n)\n" ++ post ++ "\n\n", props)

/-- One full compilation: the produced SQL text (or error) together with the
table descriptor as the caller sees it afterwards - identical to the input
except that the aliased `tblproperties` dict may have been mutated in place
(no mutation happens on a failed compilation, since the dict assignment is
the last fallible-free step). -/
def compileCreateTable (t : AthenaTable) (conn : Option Connection) :
    Except CompileErr String × AthenaTable :=
  match visit_create_table t conn with
  | .ok (text, props) =>
    (.ok text, { t with opts := { t.opts with tblproperties := props } })
  | .error e => (.error e, t)

/-! ## Reflection: remote type strings to generic types -/

/-- The generic SQLAlchemy types appearing as values of `_TYPE_MAPPINGS`,
plus `NULLTYPE`, the unknown-type sentinel used as the lookup default. -/
inductive AthenaGenericType where
  | BOOLEAN
  | FLOAT
  | INTEGER
  | BIGINT
  | DECIMAL
  | STRINGTYPE
  | BINARY
  | DATE
  | TIMESTAMP
  | TEXT
  | NULLTYPE
  deriving DecidableEq, Repr

/-- The module-level `_TYPE_MAPPINGS` dict: lowercase base keyword to
generic type. -/
def _TYPE_MAPPINGS : List (String × AthenaGenericType) :=
  [("boolean", .BOOLEAN), ("real", .FLOAT), ("float", .FLOAT), ("double", .FLOAT),
   ("tinyint", .INTEGER), ("smallint", .INTEGER), ("int", .INTEGER), ("integer", .INTEGER),
   ("bigint", .BIGINT), ("decimal", .DECIMAL), ("char", .STRINGTYPE), ("varchar", .STRINGTYPE),
   ("array", .STRINGTYPE), ("row", .STRINGTYPE), ("struct", .STRINGTYPE),
   ("varbinary", .BINARY), ("binary", .BINARY), ("map", .STRINGTYPE),
   ("date", .DATE), ("timestamp", .TIMESTAMP), ("string", .TEXT)]

/-- Is the character a parameter-suffix opener (`[(<]` in the pattern)? -/
def isOpenBr (c : Char) : Bool := c = '(' || c = '<'

/-- Is the character a parameter-suffix closer (`[)>]` in the pattern)? -/
def isCloseBr (c : Char) : Bool := c = ')' || c = '>'

/-- `.` in a Python regex matches anything but a newline; a `.+` span must
be newline-free. -/
def noNL (l : List Char) : Bool := l.all (fun c => c ≠ '\n')

/-- Matching of `([(<].+[)>]$)` against the part of the type string after
the leading letters, under Python semantics: the closer sits at the end of
the string, or just before one trailing newline (`$` also matches there).
Returns the part of the string after the match (empty, or the trailing
newline), or `none` when this alternative fails. -/
def bracketTrail (rest : List Char) : Option (List Char) :=
  match rest.head?, rest.getLast? with
  | some b, some c =>
    if isOpenBr b && isCloseBr c && decide (3 ≤ rest.length) && noNL ((rest.drop 1).dropLast) then
      some []
    else if c = '\n' then
      let r := rest.dropLast
      match r.head?, r.getLast? with
      | some b', some c' =>
        if isOpenBr b' && isCloseBr c' && decide (3 ≤ r.length) && noNL ((r.drop 1).dropLast) then
          some ['\n']
        else none
      | _, _ => none
    else none
  | _, _ => none

/-- `AthenaDialect._get_column_type`:
`re.sub(r"^([a-zA-Z]+)($|[(<].+[)>]$)", r"\1", type_)`.  The match is
anchored at the start; group 1 is the leading letters; the second group is
either the end of the string (in which case the replacement equals the
match and the string is unchanged) or a bracketed parameter suffix, which
the substitution strips.  A string the pattern does not match is returned
unchanged. -/
def _get_column_type (s : String) : String :=
  if s.data.takeWhile Char.isAlpha = [] then s
  else if s.data.dropWhile Char.isAlpha = [] then s
  else if s.data.dropWhile Char.isAlpha = ['\n'] then s
  else
    match bracketTrail (s.data.dropWhile Char.isAlpha) with
    | some trail => String.mk (s.data.takeWhile Char.isAlpha ++ trail)
    | none => s

/-- The reflection type lookup of `AthenaDialect.get_columns`:
`_TYPE_MAPPINGS.get(self._get_column_type(column.type), NULLTYPE)`. -/
def lookupType (remoteType : String) : AthenaGenericType :=
  (_TYPE_MAPPINGS.lookup (_get_column_type remoteType)).getD .NULLTYPE

/-! ## Reflection: columns and table existence -/

/-- One column of the remote table metadata (name, raw catalog type string,
comment). -/
structure AthenaColumnMetadata where
  name : String
  type : String
  comment : Option String
  deriving DecidableEq, Repr

/-- The remote table metadata slice `get_columns` reads: regular columns
and partition keys. -/
structure AthenaTableMetadata where
  columns : List AthenaColumnMetadata
  partition_keys : List AthenaColumnMetadata
  deriving DecidableEq, Repr

/-- A reflected column spec as `get_columns` builds it: always nullable, no
default, and the partition flag set exactly on partition-key-derived
entries. -/
structure ReflectedColumn where
  name : String
  type : AthenaGenericType
  nullable : Bool
  default : Option String
  comment : Option String
  awsathena_partition : Bool
  deriving DecidableEq, Repr

/-- The errors a reflection call can surface: the translated
`NoSuchTableError`, or any other remote error. -/
inductive ReflectionErr where
  | noSuchTable (table : String)
  | other (msg : String)
  deriving DecidableEq, Repr

/-- `AthenaDialect.get_columns` on fetched metadata: regular columns first,
then partition keys, each mapped through the type lookup. -/
def get_columns (m : AthenaTableMetadata) : List ReflectedColumn :=
  m.columns.map (fun c => ⟨c.name, lookupType c.type, true, none, c.comment, false⟩) ++
  m.partition_keys.map (fun c => ⟨c.name, lookupType c.type, true, none, c.comment, true⟩)

/-- `AthenaDialect.has_table`: run column reflection (whose remote fetch
either yields metadata or raises); `return True if columns else False`, with
`except NoSuchTableError: return False` and every other error propagating. -/
def has_table (fetched : Except ReflectionErr AthenaTableMetadata) : Except ReflectionErr Bool :=
  match fetched with
  | .ok m => .ok (if get_columns m = [] then false else true)
  | .error (.noSuchTable _) => .ok false
  | .error e => .error e

/-! ## The data-catalog not-found classifier -/

/-- The characters of `" not found."`, the literal tail of
`_pattern_data_catlog_exception`. -/
def notFoundTail : List Char := " not found.".data

/-- Does position `j` of `t` split it into a valid `.+` capture and the
` not found.` literal?  The capture must be nonempty and newline-free. -/
def nameOk (t : List Char) (j : Nat) : Bool :=
  decide (1 ≤ j) && notFoundTail.isPrefixOf (t.drop j) && noNL (t.take j)

/-- Greedy backtracking of the `.+` capture: the largest split position not
exceeding the first argument that `nameOk` accepts. -/
def bestJ (t : List Char) : Nat → Option Nat
  | 0 => none
  | j + 1 => if nameOk t (j + 1) then some (j + 1) else bestJ t (j)

/-- Match `(?P<name>.+)\ not\ found\.` against `t` (the text after the
keyword and its space), returning the greedily captured name. -/
def matchName (t : List Char) : Option (List Char) :=
  (bestJ t t.length).map (fun j => t.take j)

/-- Try `_pattern_data_catlog_exception` at one start position: one of the
keyword literals followed by a captured name; the first component of the
result is the `schema` group, the second the `table` group (the group not
set by the matched alternative is Python `None`). -/
def matchAt (l : List Char) : Option (Option (List Char) × Option (List Char)) :=
  if "Database ".data.isPrefixOf l then
    (matchName (l.drop 9)).map (fun nm => (some nm, none))
  else if "Namespace ".data.isPrefixOf l then
    (matchName (l.drop 10)).map (fun nm => (some nm, none))
  else if "Table ".data.isPrefixOf l then
    (matchName (l.drop 6)).map (fun nm => (none, some nm))
  else none

/-- `re.search` with `_pattern_data_catlog_exception`: the leftmost start
position with a match wins. -/
def regexSearch : List Char → Option (Option (List Char) × Option (List Char))
  | [] => none
  | c :: rest =>
    match matchAt (c :: rest) with
    | some g => some g
    | none => regexSearch rest

/-- `AthenaDialect._retry_if_data_catalog_exception`: `False` (do not
retry - the error is an expected not-found, or not a remote
`OperationalError` at all) exactly when the error is not an
`OperationalError`, or the pattern matches its text with the captured
schema equal to the queried schema or the captured table equal to the
queried table name; `True` (the error propagates to retry logic)
otherwise. -/
def _retry_if_data_catalog_exception (isOperationalError : Bool) (excText : String)
    (schema table_name : String) : Bool :=
  if !isOperationalError then false
  else
    match regexSearch excText.data with
    | some (sg, tg) =>
      if sg = some schema.data ∨ tg = some table_name.data then false else true
    | none => true

/-! ## General helper lemmas -/

/-- Substring test on character lists (used to state that an error message
mentions a given fragment). -/
def hasFactor (pat : List Char) : List Char → Bool
  | [] => pat.isEmpty
  | c :: rest => pat.isPrefixOf (c :: rest) || hasFactor pat rest

theorem string_append_empty (s : String) : s ++ "" = s := by
  apply String.ext
  rw [String.data_append]
  simp

theorem isPrefixOf_append_self (p r : List Char) : p.isPrefixOf (p ++ r) = true := by
  induction p with
  | nil => cases r <;> rfl
  | cons a as ih => simp [List.isPrefixOf, ih]

theorem hasFactor_append (pat pre suf : List Char) :
    hasFactor pat (pre ++ (pat ++ suf)) = true := by
  induction pre with
  | nil =>
    cases hp : pat with
    | nil => cases suf <;> simp [hasFactor, List.isPrefixOf]
    | cons a as =>
      have := isPrefixOf_append_self pat suf
      rw [hp] at this
      simp [hasFactor, this]
  | cons c cs ih => simp [hasFactor, ih]

theorem hasFactor_append_right (pat pre l : List Char) (h : hasFactor pat l = true) :
    hasFactor pat (pre ++ l) = true := by
  induction pre with
  | nil => simpa using h
  | cons c cs ih => simp [hasFactor, ih]

/-! ## Claim C2 -/

/-- Claim C2, counterexample: a CHAR type with no length attached to a
column compiles successfully to plain `CHAR` - `visit_CHAR` performs no
length check, so the claimed hard error does not occur for CHAR. -/
theorem c2_counterexample :
    get_column_specification ⟨"c", .CHAR none, none, false⟩ = .ok "`c` CHAR" := by rfl

/-- Claim C2 (amended): a VARCHAR (or NVARCHAR) type attached to a
column-definition context with no (truthy) length fails compilation with an
error that mentions the column name and names the unbounded text type
(`"Text"` / SQL type STRING); no length is silently defaulted.  A CHAR with
no length, by contrast, renders as plain `CHAR` without error. -/
theorem c2_varchar_length_required (name : String) (len : Option Nat) :
    (truthyLen len = none →
      typeProcess (some name) (.VARCHAR len) = .error (.compileError (varcharNoLengthMsg name)) ∧
      typeProcess (some name) (.NVARCHAR len) = .error (.compileError (varcharNoLengthMsg name)) ∧
      hasFactor name.data (varcharNoLengthMsg name).data = true ∧
      hasFactor "\"Text\" (SQL type STRING)".data (varcharNoLengthMsg name).data = true ∧
      typeProcess (some name) (.CHAR len) = .ok "CHAR") ∧
    (∀ n, len = some n → n ≠ 0 →
      typeProcess (some name) (.VARCHAR len) = .ok ("VARCHAR(" ++ toString n ++ ")")) := by
  constructor
  · intro h
    refine ⟨?_, ?_, ?_, ?_, ?_⟩
    · simp [typeProcess, visit_VARCHAR, h]
    · simp [typeProcess, visit_VARCHAR, h]
    · have hd : (varcharNoLengthMsg name).data =
          "Column \"".data ++ (name.data ++
            ("\" is of type \"String\" but has no length. ".data ++
             ("Athena does not support \"String\" (SQL type VARCHAR) without length. ".data ++
              "You must either provide one or use the type \"Text\" (SQL type STRING)".data))) := by
        simp [varcharNoLengthMsg, String.data_append]
      rw [hd]
      have : hasFactor name.data (name.data ++
          ("\" is of type \"String\" but has no length. ".data ++
           ("Athena does not support \"String\" (SQL type VARCHAR) without length. ".data ++
            "You must either provide one or use the type \"Text\" (SQL type STRING)".data))) = true := by
        have := hasFactor_append name.data []
          ("\" is of type \"String\" but has no length. ".data ++
           ("Athena does not support \"String\" (SQL type VARCHAR) without length. ".data ++
            "You must either provide one or use the type \"Text\" (SQL type STRING)".data))
        simpa using this
      exact hasFactor_append_right _ _ _ this
    · have hd : (varcharNoLengthMsg name).data =
          "Column \"".data ++ (name.data ++
            ("\" is of type \"String\" but has no length. ".data ++
             ("Athena does not support \"String\" (SQL type VARCHAR) without length. ".data ++
              "You must either provide one or use the type \"Text\" (SQL type STRING)".data))) := by
        simp [varcharNoLengthMsg, String.data_append]
      rw [hd]
      apply hasFactor_append_right
      apply hasFactor_append_right
      apply hasFactor_append_right
      have : "You must either provide one or use the type \"Text\" (SQL type STRING)".data =
          "You must either provide one or use the type ".data ++
            ("\"Text\" (SQL type STRING)".data ++ []) := by decide
      rw [this]
      exact hasFactor_append _ _ _
    · simp [typeProcess, _render_string_type, h]
  · intro n hn hnz
    subst hn
    simp [typeProcess, visit_VARCHAR, truthyLen, _render_string_type, hnz]

/-- Claim C2, witness. -/
theorem c2_witness :
    typeProcess (some "name") (.VARCHAR none) =
      .error (.compileError (varcharNoLengthMsg "name")) ∧
    typeProcess (some "name") (.CHAR none) = .ok "CHAR" ∧
    typeProcess (some "name") (.VARCHAR (some 10)) = .ok ("VARCHAR(" ++ toString 10 ++ ")") := by
  have h := c2_varchar_length_required "name" none
  have h' := c2_varchar_length_required "name" (some 10)
  exact ⟨(h.1 (by decide)).1, (h.1 (by decide)).2.2.2.2, h'.2 10 rfl (by decide)⟩

/-! ## Claim C4 -/

/-- Concrete table for the parquet/snappy end-to-end check of claim C4. -/
def c4ParquetTable : AthenaTable :=
  { name := "t4", schema := none, columns := [], comment := none,
    opts := { compression := some "snappy", location := some "s3://b/t4/",
              row_format := none, stored_as := some "parquet", tblproperties := none } }

/-- Concrete table for the textfile/gzip end-to-end check of claim C4. -/
def c4TextfileTable : AthenaTable :=
  { name := "t4", schema := none, columns := [], comment := none,
    opts := { compression := some "gzip", location := some "s3://b/t4/",
              row_format := none, stored_as := some "textfile", tblproperties := none } }

/-- Claim C4: when a truthy compression codec is resolved and the lowercased
storage format is a key of the fixed three-entry table
`COMPRESSION_TBLPROPERTY_KEY` (textfile and json map to `compressionType`,
parquet to `parquet.compress`), the entry `key = UPPERCASED(codec)` is
assigned into the table-properties mapping; in particular parquet+snappy
yields `'parquet.compress'='SNAPPY'` and textfile+gzip yields
`'compressionType'='GZIP'` in the rendered TBLPROPERTIES block. -/
theorem c4_compression_key (props : List (String × String)) (stored_as c key : String)
    (hc : c ≠ "") (hk : COMPRESSION_TBLPROPERTY_KEY.lookup (pyToLower stored_as) = some key) :
    resolveProps props stored_as (some c) = .ok (dictInsert props key (pyToUpper c)) ∧
    COMPRESSION_TBLPROPERTY_KEY.lookup "textfile" = some "compressionType" ∧
    COMPRESSION_TBLPROPERTY_KEY.lookup "parquet" = some "parquet.compress" ∧
    COMPRESSION_TBLPROPERTY_KEY.lookup "json" = some "compressionType" ∧
    COMPRESSION_TBLPROPERTY_KEY.length = 3 ∧
    (compileCreateTable c4ParquetTable none).1 =
      .ok "\nCREATE EXTERNAL TABLE `t4` (\n)\nSTORED AS parquet\nLOCATION 's3://b/t4/'\nTBLPROPERTIES (\n    'parquet.compress'='SNAPPY'\n)\n\n\n" ∧
    (compileCreateTable c4TextfileTable none).1 =
      .ok "\nCREATE EXTERNAL TABLE `t4` (\n)\nSTORED AS textfile\nLOCATION 's3://b/t4/'\nTBLPROPERTIES (\n    'compressionType'='GZIP'\n)\n\n\n" ∧
    (∀ (t : AthenaTable) (conn : Option Connection) (c0 : String),
      truthyStr t.opts.compression = some c0 → resolveCompression t conn = some c0) ∧
    (∀ (t : AthenaTable) (rc : Connection),
      truthyStr t.opts.compression = none → resolveCompression t (some rc) = rc.compression) := by
    refine ⟨?_, by rfl, by rfl, by rfl, by rfl, by rfl, by rfl, ?_, ?_⟩
    · simp [resolveProps, truthyStr, hc, hk]
    · intro t conn c0 h
      simp [resolveCompression, h]
    · intro t rc h
      simp [resolveCompression, h]

/-- Claim C4, witness. -/
theorem c4_witness :
    resolveProps [("a", "b")] "PARQUET" (some "snappy") =
      .ok (dictInsert [("a", "b")] "parquet.compress" (pyToUpper "snappy")) := by
  exact (c4_compression_key [("a", "b")] "PARQUET" "snappy" "parquet.compress"
    (by decide) (by rfl)).1

/-! ## Claim C5 -/

/-- Concrete table requesting compression with an unsupported storage
format. -/
def c5OrcTable : AthenaTable :=
  { name := "t5", schema := none, columns := [], comment := none,
    opts := { compression := some "snappy", location := some "s3://b/t5/",
              row_format := none, stored_as := some "orc", tblproperties := none } }

/-- Claim C5, counterexample: compression with storage format `orc` (outside
the fixed lookup table) raises a bare `KeyError` carrying only the
lowercased format name - not a `CompileError` with a message naming the
unsupported combination. -/
theorem c5_counterexample :
    (compileCreateTable c5OrcTable none).1 = .error (.keyError "orc") := by rfl

/-- Claim C5 (amended): requesting compression with a storage format outside
the fixed lookup table fails at compile time (before any remote call), but
with an uncontrolled key-lookup error (`KeyError`) carrying only the
lowercased storage-format name, not a configuration error with an
actionable message. -/
theorem c5_unknown_format_keyerror (props : List (String × String)) (stored_as c : String)
    (hc : c ≠ "") (hk : COMPRESSION_TBLPROPERTY_KEY.lookup (pyToLower stored_as) = none) :
    resolveProps props stored_as (some c) = .error (.keyError (pyToLower stored_as)) := by
  simp [resolveProps, truthyStr, hc, hk]

/-- Claim C5, witness. -/
theorem c5_witness :
    resolveProps [] "orc" (some "snappy") = .error (.keyError (pyToLower "orc")) :=
  c5_unknown_format_keyerror [] "orc" "snappy" (by decide) (by rfl)

/-! ## Claim C10 -/

/-- Claim C10: `has_table` returns false both on a translated not-found
error and on a table whose column reflection succeeds with an empty column
list (no columns and no partition keys); it returns true exactly when
column reflection returns at least one column; any other remote error
propagates. -/
theorem c10_has_table (m : AthenaTableMetadata) (name msg : String) :
    (has_table (.ok m) = .ok true ↔ (m.columns ≠ [] ∨ m.partition_keys ≠ [])) ∧
    (has_table (.ok m) = .ok false ↔ (m.columns = [] ∧ m.partition_keys = [])) ∧
    has_table (.error (.noSuchTable name)) = .ok false ∧
    has_table (.error (.other msg)) = .error (.other msg) := by
  have hcols : get_columns m = [] ↔ (m.columns = [] ∧ m.partition_keys = []) := by
    simp [get_columns]
  refine ⟨?_, ?_, rfl, rfl⟩
  · by_cases h : get_columns m = []
    · simp [has_table, h]
      rw [hcols] at h
      tauto
    · simp [has_table, h]
      rw [hcols] at h
      tauto
  · by_cases h : get_columns m = []
    · simp [has_table, h]
      rwa [hcols] at h
    · simp [has_table, h]
      rw [hcols] at h
      tauto

/-- Claim C10, witness. -/
theorem c10_witness :
    (has_table (.ok ⟨[], [⟨"dt", "date", none⟩]⟩) = .ok true ↔
      (([] : List AthenaColumnMetadata) ≠ [] ∨ [⟨"dt", "date", none⟩] ≠ ([] : List AthenaColumnMetadata))) ∧
    (has_table (.ok ⟨[], [⟨"dt", "date", none⟩]⟩) = .ok false ↔
      (([] : List AthenaColumnMetadata) = [] ∧ [⟨"dt", "date", none⟩] = ([] : List AthenaColumnMetadata))) ∧
    has_table (.error (.noSuchTable "t")) = .ok false ∧
    has_table (.error (.other "boom")) = .error (.other "boom") :=
  c10_has_table ⟨[], [⟨"dt", "date", none⟩]⟩ "t" "boom"

/-! ## Claim C3 -/

/-- Concrete table with no location option (and nothing else set). -/
def noLocTable : AthenaTable :=
  { name := "nloc", schema := none, columns := [], comment := none,
    opts := { compression := none, location := none,
              row_format := none, stored_as := none, tblproperties := none } }

/-- The no-connection location error message of `post_create_table`. -/
def noLocationDialectMsg : String :=
  "You need to specify the storage location for the table using the `awsathena_location` dialect keyword argument"

/-- Claim C3, counterexample: with no location option and no connection, the
configuration error names only the table-level `awsathena_location` option -
the connection-level staging-directory remediation (`s3_staging_dir` /
`s3_dir`) is not mentioned, so the error does not name the two claimed
remediations.  Moreover, with an active connection whose staging option is
unset, compilation does not fail at all: the Python `None` is interpolated
into the derived location. -/
theorem c3_counterexample :
    (compileCreateTable noLocTable none).1 = .error (.compileError noLocationDialectMsg) ∧
    hasFactor "s3_staging_dir".data noLocationDialectMsg.data = false ∧
    hasFactor "s3_dir".data noLocationDialectMsg.data = false ∧
    (compileCreateTable noLocTable (some ⟨none, none, "default", none⟩)).1 =
      .ok "\nCREATE EXTERNAL TABLE `nloc` (\n)\nSTORED AS PARQUET\nLOCATION 'Nonedefault/nloc/'\n\n\n" := by
  refine ⟨by rfl, by decide, by decide, by rfl⟩

/-- Claim C3 (amended): location precedence is (a) the truthy per-table
location option, with a trailing slash appended exactly when the last
character is not `/`; else (b) with an active connection, the concatenation
of the staging directory (`_kwargs["s3_dir"]` when present, else
`s3_staging_dir`, a `None` staging directory being interpolated as the
literal string `"None"` rather than failing), the resolved schema, `/`, the
table name and `/`; else (c) with no connection, a compile-time
configuration error whose message names the table-level
`awsathena_location` dialect option (only). -/
theorem c3_location_resolution (t : AthenaTable) (rc : Connection) (loc d sch : String) :
    (t.opts.location = some loc → loc ≠ "" →
      ∀ conn, resolveLocation t conn = .ok (loc ++ (if loc.data.getLast? ≠ some '/' then "/" else ""))) ∧
    (truthyStr t.opts.location = none →
      resolveLocation t (some rc) =
        .ok ((match rc.s3_dir with
              | some d0 => d0
              | none => pyNoneStr rc.s3_staging_dir) ++
             (match truthyStr t.schema with
              | some s0 => s0
              | none => rc.schema_name) ++ "/" ++ t.name ++ "/")) ∧
    (truthyStr t.opts.location = none → rc.s3_dir = none → rc.s3_staging_dir = some d →
      truthyStr t.schema = none →
      resolveLocation t (some rc) = .ok (d ++ rc.schema_name ++ "/" ++ t.name ++ "/")) ∧
    (truthyStr t.opts.location = none → rc.s3_dir = none → rc.s3_staging_dir = none →
      truthyStr t.schema = none →
      resolveLocation t (some rc) = .ok ("None" ++ rc.schema_name ++ "/" ++ t.name ++ "/")) ∧
    (truthyStr t.opts.location = none → rc.s3_dir = some d → truthyStr t.schema = some sch →
      resolveLocation t (some rc) = .ok (d ++ sch ++ "/" ++ t.name ++ "/")) ∧
    (truthyStr t.opts.location = none →
      resolveLocation t none = .error (.compileError noLocationDialectMsg)) ∧
    resolveLocation { noLocTable with opts := { noLocTable.opts with location := some "s3://bucket/path" } } none =
      .ok "s3://bucket/path/" ∧
    resolveLocation { noLocTable with opts := { noLocTable.opts with location := some "s3://bucket/path/" } } none =
      .ok "s3://bucket/path/" := by
  have hslash : ∀ s : String, (s ++ "/" : String) ≠ "" := by
    intro s h
    have h2 : (s ++ "/").data = [] := by rw [h]
    rw [String.data_append] at h2
    simp at h2
  refine ⟨?_, ?_, ?_, ?_, ?_, ?_, by rfl, by rfl⟩
  · intro hl hne conn
    have hne2 : (loc ++ (if loc.data.getLast? = some '/' then "" else "/")) ≠ "" := by
      by_cases hb : loc.data.getLast? = some '/'
      · rw [if_pos hb, string_append_empty]
        exact hne
      · rw [if_neg hb]
        exact hslash loc
    simp [resolveLocation, hl, truthyStr, hne, hne2]
  · intro h1
    cases hd : rc.s3_dir with
    | some d0 =>
      cases hs : truthyStr t.schema with
      | some s0 => simp [resolveLocation, h1, hd, hs, pyNoneStr, hslash _]
      | none => simp [resolveLocation, h1, hd, hs, pyNoneStr, hslash _]
    | none =>
      cases hs : truthyStr t.schema with
      | some s0 => simp [resolveLocation, h1, hd, hs, pyNoneStr, hslash _]
      | none => simp [resolveLocation, h1, hd, hs, pyNoneStr, hslash _]
  · intro h1 h2 h3 h4
    simp [resolveLocation, h1, h2, h3, h4, pyNoneStr, hslash _]
  · intro h1 h2 h3 h4
    simp [resolveLocation, h1, h2, h3, h4, pyNoneStr, hslash _]
  · intro h1 h2 h3
    simp [resolveLocation, h1, h2, h3, hslash _]
  · intro h1
    simp [resolveLocation, h1, locationError, noLocationDialectMsg]

/-- Claim C3, witness: exercises the explicit-location branch, the general
derivation (on a connection with an `s3_dir` kwarg present and a table
carrying its own schema, showing the kwarg wins over the staging dir and the
table schema wins over the connection default), the precedence conjunct at
the same input, and the no-connection error. -/
theorem c3_witness :
    resolveLocation
        { noLocTable with opts := { noLocTable.opts with location := some "s3://bucket/path" } }
        none =
      .ok ("s3://bucket/path" ++
        (if "s3://bucket/path".data.getLast? ≠ some '/' then "/" else "")) ∧
    resolveLocation { noLocTable with schema := some "sch" }
        (some ⟨some "s3://kw/", some "s3://stage/", "default", none⟩) =
      .ok ((match (some "s3://kw/" : Option String) with
            | some d0 => d0
            | none => pyNoneStr (some "s3://stage/")) ++
           (match truthyStr (some "sch") with
            | some s0 => s0
            | none => "default") ++ "/" ++ "nloc" ++ "/") ∧
    resolveLocation { noLocTable with schema := some "sch" }
        (some ⟨some "s3://kw/", some "s3://stage/", "default", none⟩) =
      .ok ("s3://kw/" ++ "sch" ++ "/" ++ "nloc" ++ "/") ∧
    resolveLocation noLocTable none = .error (.compileError noLocationDialectMsg) := by
  refine ⟨?_, ?_, ?_, ?_⟩
  · exact (c3_location_resolution _ ⟨none, none, "d", none⟩ "s3://bucket/path" "d" "s").1
      rfl (by decide) none
  · exact (c3_location_resolution { noLocTable with schema := some "sch" }
      ⟨some "s3://kw/", some "s3://stage/", "default", none⟩ "x" "s3://kw/" "sch").2.1
      (by decide)
  · exact (c3_location_resolution { noLocTable with schema := some "sch" }
      ⟨some "s3://kw/", some "s3://stage/", "default", none⟩ "x" "s3://kw/" "sch").2.2.2.2.1
      (by decide) rfl (by decide)
  · exact (c3_location_resolution noLocTable ⟨none, none, "d", none⟩ "x" "d" "s").2.2.2.2.2.1
      (by decide)

/-! ## Claim C1 -/

/-- The filtering loop of `_get_columns_specs` renders exactly the columns
whose partition flag equals the `partitions` argument, in declaration
order. -/
theorem specs_go_filter (tableName : String) (partitions : Bool) (text sep : String)
    (cols : List AthenaColumn) :
    _get_columns_specs_go tableName partitions text sep cols =
      renderSpecsGo tableName text sep (cols.filter (fun x => x.partition == partitions)) := by
  induction cols generalizing text sep with
  | nil => rfl
  | cons c rest ih =>
    by_cases h : c.partition = partitions
    · have h1 : (c.partition != partitions) = false := by simp [h]
      have h2 : List.filter (fun x => x.partition == partitions) (c :: rest) =
          c :: List.filter (fun x => x.partition == partitions) rest := by
        simp [List.filter_cons, h]
      rw [h2]
      simp only [_get_columns_specs_go, renderSpecsGo, h1, Bool.false_eq_true, if_false]
      cases hs : get_column_specification c with
      | ok processed => exact ih _ _
      | error e => rfl
    · have h1 : (c.partition != partitions) = true := by simp [h]
      have h2 : List.filter (fun x => x.partition == partitions) (c :: rest) =
          List.filter (fun x => x.partition == partitions) rest := by
        simp [List.filter_cons, h]
      rw [h2]
      simp only [_get_columns_specs_go, h1, if_true]
      exact ih _ _

/-- The spec's end-to-end scenario table: a regular INTEGER column and a
partitioned DATE column, parquet/snappy, explicit location. -/
def eventsTable : AthenaTable :=
  { name := "events", schema := none,
    columns := [⟨"id", .INTEGER, none, false⟩, ⟨"dt", .DATE, none, true⟩],
    comment := none,
    opts := { compression := some "snappy", location := some "s3://b/events/",
              row_format := none, stored_as := some "parquet", tblproperties := none } }

/-- Claim C1: the main column list of a CREATE TABLE renders exactly the
columns with the partition flag unset, in declaration order; the
`PARTITIONED BY` clause renders exactly the columns with the flag set, in
declaration order; each column of the table belongs to exactly one of the
two groups; and the end-to-end scenario table compiles with the regular
column inline and the partition column in `PARTITIONED BY`. -/
theorem c1_partition_grouping (tableName : String) (cols : List AthenaColumn) :
    _get_columns_specs tableName cols false =
      renderSpecs tableName (cols.filter (fun c => !c.partition)) ∧
    _get_columns_specs tableName cols true =
      renderSpecs tableName (cols.filter (fun c => c.partition)) ∧
    (cols.filter (fun c => !c.partition)).Sublist cols ∧
    (cols.filter (fun c => c.partition)).Sublist cols ∧
    (∀ c ∈ cols,
      (c ∈ cols.filter (fun c => !c.partition) ↔ c ∉ cols.filter (fun c => c.partition))) ∧
    (compileCreateTable eventsTable none).1 =
      .ok "\nCREATE EXTERNAL TABLE `events` (\n\t`id` INT\n)\nPARTITIONED BY (\n\t`dt` DATE\n)\nSTORED AS parquet\nLOCATION 's3://b/events/'\nTBLPROPERTIES (\n    'parquet.compress'='SNAPPY'\n)\n\n\n" := by
  have e1 : (fun (x : AthenaColumn) => x.partition == false) = (fun x => !x.partition) := by
    funext x
    cases x.partition <;> rfl
  have e2 : (fun (x : AthenaColumn) => x.partition == true) = (fun x => x.partition) := by
    funext x
    cases x.partition <;> rfl
  refine ⟨?_, ?_, List.filter_sublist _, List.filter_sublist _, ?_, by rfl⟩
  · rw [_get_columns_specs, specs_go_filter, e1, renderSpecs]
  · rw [_get_columns_specs, specs_go_filter, e2, renderSpecs]
  · intro c hc
    simp only [List.mem_filter, hc, true_and]
    cases hp : c.partition <;> simp [hp]

/-- Claim C1, witness. -/
theorem c1_witness :
    (⟨"dt", .DATE, none, true⟩ : AthenaColumn) ∈
        eventsTable.columns.filter (fun c => !c.partition) ↔
      (⟨"dt", .DATE, none, true⟩ : AthenaColumn) ∉
        eventsTable.columns.filter (fun c => c.partition) :=
  (c1_partition_grouping "events" eventsTable.columns).2.2.2.2.1
    ⟨"dt", .DATE, none, true⟩ (by decide)

/-! ## Claim C6 -/

/-- Shape of a successful `resolveProps` result: the input mapping, or the
input mapping with one key assigned. -/
theorem resolveProps_shape (props : List (String × String)) (sa : String) (comp : Option String)
    (res : List (String × String)) (h : resolveProps props sa comp = .ok res) :
    res = props ∨ ∃ k v, res = dictInsert props k v := by
  unfold resolveProps at h
  cases ht : truthyStr comp with
  | none =>
    rw [ht] at h
    simp at h
    exact Or.inl h.symm
  | some c =>
    rw [ht] at h
    cases hk : COMPRESSION_TBLPROPERTY_KEY.lookup (pyToLower sa) with
    | none => rw [hk] at h; simp at h
    | some key =>
      rw [hk] at h
      simp at h
      exact Or.inr ⟨key, pyToUpper c, h.symm⟩

/-- Shape of the caller-visible `tblproperties` after a successful
`post_create_table`: unchanged, or - when a nonempty mapping was supplied -
that mapping with one synthesized entry assigned. -/
theorem post_props_shape (t : AthenaTable) (conn : Option Connection) (post : String)
    (props : Option (List (String × String)))
    (h : post_create_table t conn = .ok (post, props)) :
    props = t.opts.tblproperties ∨
      ∃ l k v, t.opts.tblproperties = some l ∧ l ≠ [] ∧ props = some (dictInsert l k v) := by
  unfold post_create_table at h
  cases h1 : _get_columns_specs t.name t.columns true with
  | error e => rw [h1] at h; simp at h
  | ok ps =>
    rw [h1] at h
    cases h2 : resolveLocation t conn with
    | error e => rw [h2] at h; simp at h
    | ok loc =>
      rw [h2] at h
      cases h3 : resolveProps (t.opts.tblproperties.getD []) (storedAsOf t)
          (resolveCompression t conn) with
      | error e => rw [h3] at h; simp at h
      | ok props1 =>
        rw [h3] at h
        simp at h
        obtain ⟨hpost, hprops⟩ := h
        have hsh := resolveProps_shape _ _ _ _ h3
        cases ho : t.opts.tblproperties with
        | none =>
          left
          rw [← hprops, ho]
          simp [callerProps]
        | some l =>
          rw [ho] at hsh
          simp at hsh
          by_cases hl : l = []
          · left
            rw [← hprops, ho, hl]
            simp [callerProps]
          · rcases hsh with hsh | ⟨k, v, hsh⟩
            · left
              rw [← hprops, ho, hsh]
              simp [callerProps, hl]
            · right
              refine ⟨l, k, v, rfl, hl, ?_⟩
              rw [← hprops, ho, hsh]
              simp [callerProps, hl]

/-- Shape of the caller-visible `tblproperties` after a successful
`visit_create_table`. -/
theorem visit_props_shape (t : AthenaTable) (conn : Option Connection) (text : String)
    (props : Option (List (String × String)))
    (h : visit_create_table t conn = .ok (text, props)) :
    props = t.opts.tblproperties ∨
      ∃ l k v, t.opts.tblproperties = some l ∧ l ≠ [] ∧ props = some (dictInsert l k v) := by
  unfold visit_create_table at h
  cases h1 : _get_columns_specs t.name t.columns false with
  | error e => rw [h1] at h; simp at h
  | ok mainSpecs =>
    rw [h1] at h
    cases h2 : post_create_table t conn with
    | error e => rw [h2] at h; simp at h
    | ok pr =>
      obtain ⟨post, props1⟩ := pr
      rw [h2] at h
      simp at h
      obtain ⟨-, hp⟩ := h
      rw [← hp]
      exact post_props_shape t conn post props1 h2

/-- Concrete table whose caller-supplied `tblproperties` dict is mutated by
compilation. -/
def mutTable : AthenaTable :=
  { name := "t", schema := none, columns := [], comment := none,
    opts := { compression := some "snappy", location := some "s3://b/p/",
              row_format := none, stored_as := some "parquet",
              tblproperties := some [("a", "b")] } }

/-- Claim C6, counterexample: compiling a table whose caller supplied a
nonempty `tblproperties` dict and a compression option leaves the caller's
dict with the synthesized `parquet.compress` entry appended - the compiler
mutates its input descriptor in place. -/
theorem c6_counterexample :
    (compileCreateTable mutTable none).2 ≠ mutTable ∧
    (compileCreateTable mutTable none).2.opts.tblproperties =
      some [("a", "b"), ("parquet.compress", "SNAPPY")] ∧
    mutTable.opts.tblproperties = some [("a", "b")] := by
  refine ⟨by decide, by rfl, by rfl⟩

/-- Claim C6 (amended): the compiler reads but never mutates any field of
the table descriptor, with one exception: when a compression codec is
resolved and the caller supplied a nonempty `tblproperties` mapping, that
mapping (aliased, not copied) has the single synthesized compression entry
assigned into it; every other field, and the mapping in every other case,
is unchanged. -/
theorem c6_read_only_except_tblproperties (t : AthenaTable) (conn : Option Connection) :
    (compileCreateTable t conn).2.name = t.name ∧
    (compileCreateTable t conn).2.schema = t.schema ∧
    (compileCreateTable t conn).2.columns = t.columns ∧
    (compileCreateTable t conn).2.comment = t.comment ∧
    (compileCreateTable t conn).2.opts.compression = t.opts.compression ∧
    (compileCreateTable t conn).2.opts.location = t.opts.location ∧
    (compileCreateTable t conn).2.opts.row_format = t.opts.row_format ∧
    (compileCreateTable t conn).2.opts.stored_as = t.opts.stored_as ∧
    ((compileCreateTable t conn).2.opts.tblproperties = t.opts.tblproperties ∨
      ∃ l k v, t.opts.tblproperties = some l ∧ l ≠ [] ∧
        (compileCreateTable t conn).2.opts.tblproperties = some (dictInsert l k v)) := by
  unfold compileCreateTable
  cases hv : visit_create_table t conn with
  | error e => simp
  | ok pr =>
    obtain ⟨text, props⟩ := pr
    refine ⟨rfl, rfl, rfl, rfl, rfl, rfl, rfl, rfl, ?_⟩
    have := visit_props_shape t conn text props hv
    simpa using this

/-! ## Claim C8 -/

/-- Python dict assignment is idempotent: assigning the same key/value
twice leaves the mapping as after the first assignment. -/
theorem dictInsert_idem (l : List (String × String)) (k v : String) :
    dictInsert (dictInsert l k v) k v = dictInsert l k v := by
  unfold dictInsert
  by_cases h : (l.any fun p => decide (p.1 = k)) = true
  · rw [if_pos h]
    have h2 : ((l.map fun p => if p.1 = k then (k, v) else p).any
        fun p => decide (p.1 = k)) = true := by
      rw [List.any_eq_true] at h ⊢
      obtain ⟨p, hp, hpk⟩ := h
      rw [decide_eq_true_iff] at hpk
      exact ⟨(k, v), List.mem_map.mpr ⟨p, hp, by simp [hpk]⟩, by simp⟩
    rw [if_pos h2, List.map_map]
    apply List.map_congr_left
    intro p _
    by_cases hpk : p.1 = k <;> simp [Function.comp, hpk]
  · rw [if_neg h]
    have h2 : ((l ++ [(k, v)]).any fun p => decide (p.1 = k)) = true := by
      simp
    rw [if_pos h2, List.map_append]
    have h3 : (l.map fun p => if p.1 = k then (k, v) else p) = l := by
      have h4 : ∀ p ∈ l, (if p.1 = k then (k, v) else p) = p := by
        intro p hp
        have h5 : ¬(p.1 = k) := by
          intro hk
          exact h (List.any_eq_true.mpr ⟨p, hp, by simp [hk]⟩)
        simp [h5]
      calc (l.map fun p => if p.1 = k then (k, v) else p) = l.map id :=
            List.map_congr_left h4
        _ = l := List.map_id l
    rw [h3]
    simp

/-- A successful `resolveProps` is stable: running it again on its own
output (same storage format, same resolved compression) returns the output
unchanged. -/
theorem resolveProps_stable (props : List (String × String)) (sa : String) (comp : Option String)
    (res : List (String × String)) (h : resolveProps props sa comp = .ok res) :
    resolveProps res sa comp = .ok res := by
  unfold resolveProps at h ⊢
  cases ht : truthyStr comp with
  | none => rfl
  | some c =>
    cases hk : COMPRESSION_TBLPROPERTY_KEY.lookup (pyToLower sa) with
    | none =>
      rw [ht, hk] at h
      simp at h
    | some key =>
      rw [ht, hk] at h
      dsimp only at h ⊢
      rw [Except.ok.injEq] at h
      rw [← h, dictInsert_idem]

/-- `resolveProps` is also stable across the caller-visible round trip: on
the mapping the caller sees after `post_create_table`, it reproduces the
same resolved mapping. -/
theorem resolveProps_restable (orig : Option (List (String × String))) (sa : String)
    (comp : Option String) (props1 : List (String × String))
    (h : resolveProps (orig.getD []) sa comp = .ok props1) :
    resolveProps ((callerProps orig props1).getD []) sa comp = .ok props1 := by
  cases orig with
  | none => simpa [callerProps] using h
  | some l =>
    by_cases hl : l = []
    · subst hl
      simpa [callerProps] using h
    · simp only [callerProps, hl, ne_eq, not_false_eq_true, if_true, Option.getD_some]
      exact resolveProps_stable l sa comp props1 (by simpa using h)

/-- A successful `post_create_table` yields the same text when run again on
the table as the caller now sees it (with the possibly-mutated
`tblproperties`). -/
theorem post_stable (t : AthenaTable) (conn : Option Connection) (post : String)
    (props : Option (List (String × String)))
    (h : post_create_table t conn = .ok (post, props)) :
    ∃ props2,
      post_create_table { t with opts := { t.opts with tblproperties := props } } conn =
        .ok (post, props2) := by
  unfold post_create_table at h
  cases h1 : _get_columns_specs t.name t.columns true with
  | error e => rw [h1] at h; simp at h
  | ok ps =>
    rw [h1] at h
    cases h2 : resolveLocation t conn with
    | error e => rw [h2] at h; simp at h
    | ok loc =>
      rw [h2] at h
      cases h3 : resolveProps (t.opts.tblproperties.getD []) (storedAsOf t)
          (resolveCompression t conn) with
      | error e => rw [h3] at h; simp at h
      | ok props1 =>
        rw [h3] at h
        rw [Except.ok.injEq, Prod.mk.injEq] at h
        obtain ⟨hpost, hprops⟩ := h
        have hrp : resolveProps (props.getD []) (storedAsOf t) (resolveCompression t conn) =
            .ok props1 := by
          rw [← hprops]
          exact resolveProps_restable t.opts.tblproperties _ _ _ h3
        refine ⟨callerProps props props1, ?_⟩
        show (match _get_columns_specs t.name t.columns true with
              | .error e => .error e
              | .ok partitionSpecs =>
                match resolveLocation t conn with
                | .error e => .error e
                | .ok location =>
                  match resolveProps (props.getD []) (storedAsOf t)
                      (resolveCompression t conn) with
                  | .error e => .error e
                  | .ok props1 =>
                    .ok (buildPostText t partitionSpecs location (storedAsOf t) props1,
                         callerProps props props1)) =
            Except.ok (post, callerProps props props1)
        rw [h1, h2, hrp]
        dsimp only
        rw [hpost]

/-- A successful `visit_create_table` yields the same text when run again
on the table as the caller now sees it. -/
theorem visit_stable (t : AthenaTable) (conn : Option Connection) (text : String)
    (props : Option (List (String × String)))
    (h : visit_create_table t conn = .ok (text, props)) :
    ∃ props2,
      visit_create_table { t with opts := { t.opts with tblproperties := props } } conn =
        .ok (text, props2) := by
  unfold visit_create_table at h
  cases h1 : _get_columns_specs t.name t.columns false with
  | error e => rw [h1] at h; simp at h
  | ok mainSpecs =>
    rw [h1] at h
    cases h2 : post_create_table t conn with
    | error e => rw [h2] at h; simp at h
    | ok pr =>
      obtain ⟨post, props1⟩ := pr
      rw [h2] at h
      rw [Except.ok.injEq, Prod.mk.injEq] at h
      obtain ⟨htext, hprops⟩ := h
      subst hprops
      obtain ⟨props2, hp2⟩ := post_stable t conn post props1 h2
      refine ⟨props2, ?_⟩
      show (match _get_columns_specs t.name t.columns false with
            | .error e => .error e
            | .ok mainSpecs =>
              match post_create_table
                  { t with opts := { t.opts with tblproperties := props1 } } conn with
              | .error e => .error e
              | .ok (post, props) =>
                .ok ("\nCREATE EXTERNAL " ++ "TABLE " ++ formatTable t ++ " (" ++
                     mainSpecs ++ "\n)\n" ++ post ++ "\n\n", props)) =
          Except.ok (text, props2)
      rw [h1, hp2]
      dsimp only
      rw [htext]

/-- Claim C8: compiling a table descriptor a second time (on the descriptor
state the caller sees after the first compilation, including any mutated
`tblproperties` mapping) yields a byte-identical result - the same SQL text
on success, the same error on failure. -/
theorem c8_idempotent (t : AthenaTable) (conn : Option Connection) :
    (compileCreateTable (compileCreateTable t conn).2 conn).1 = (compileCreateTable t conn).1 := by
  unfold compileCreateTable
  cases hv : visit_create_table t conn with
  | error e => rw [hv]
  | ok pr =>
    obtain ⟨text, props⟩ := pr
    obtain ⟨props2, hp2⟩ := visit_stable t conn text props hv
    simp only [hp2]

/-! ## Claim C7 -/

theorem takeWhile_all {p : Char → Bool} (l : List Char) (h : l.all p = true) :
    l.takeWhile p = l := by
  induction l with
  | nil => rfl
  | cons a as ih =>
    simp only [List.all_cons, Bool.and_eq_true] at h
    simp [List.takeWhile_cons, h.1, ih h.2]

theorem dropWhile_all {p : Char → Bool} (l : List Char) (h : l.all p = true) :
    l.dropWhile p = [] := by
  induction l with
  | nil => rfl
  | cons a as ih =>
    simp only [List.all_cons, Bool.and_eq_true] at h
    simp [List.dropWhile_cons, h.1, ih h.2]

theorem takeWhile_append_cons {p : Char → Bool} (l1 : List Char) (c : Char) (l2 : List Char)
    (h : l1.all p = true) (hc : p c = false) :
    (l1 ++ c :: l2).takeWhile p = l1 := by
  induction l1 with
  | nil => simp [List.takeWhile_cons, hc]
  | cons a as ih =>
    simp only [List.all_cons, Bool.and_eq_true] at h
    simp [List.takeWhile_cons, h.1, ih h.2]

theorem dropWhile_append_cons {p : Char → Bool} (l1 : List Char) (c : Char) (l2 : List Char)
    (h : l1.all p = true) (hc : p c = false) :
    (l1 ++ c :: l2).dropWhile p = c :: l2 := by
  induction l1 with
  | nil => simp [List.dropWhile_cons, hc]
  | cons a as ih =>
    simp only [List.all_cons, Bool.and_eq_true] at h
    simp [List.dropWhile_cons, h.1, ih h.2]

/-- The bracketed-suffix alternative of the pattern matches
`op :: mid ++ [cl]` (open bracket, nonempty newline-free middle, close
bracket at the end of the string) with nothing after the match. -/
theorem bracketTrail_closed (op cl : Char) (mid : List Char) (h3 : isOpenBr op = true)
    (h4 : isCloseBr cl = true) (h5 : mid ≠ []) (h6 : noNL mid = true) :
    bracketTrail (op :: (mid ++ [cl])) = some [] := by
  unfold bracketTrail
  have hh : (op :: (mid ++ [cl])).head? = some op := rfl
  have hl : (op :: (mid ++ [cl])).getLast? = some cl := by
    show ((op :: mid) ++ [cl]).getLast? = some cl
    exact List.getLast?_concat _
  rw [hh, hl]
  have hlen : 3 ≤ (op :: (mid ++ [cl])).length := by
    have := List.length_pos.mpr h5
    simp [List.length_append]
    omega
  have hdrop : ((op :: (mid ++ [cl])).drop 1).dropLast = mid := by
    show (mid ++ [cl]).dropLast = mid
    exact List.dropLast_concat
  have hm1 : 1 ≤ mid.length := List.length_pos.mpr h5
  simp only [h3, h4, hdrop, h6, List.length_cons, List.length_append, List.length_singleton,
    Bool.true_and, Bool.and_true, decide_eq_true_eq]
  rw [if_pos (by omega)]

/-- Claim C7: reflection type lookup strips a parenthesized or
angle-bracketed parameter suffix down to the leading-letters base keyword
(a bare keyword passes through unchanged), looks the result up in the
closed `_TYPE_MAPPINGS` table, and maps unmatched keywords to the
`NULLTYPE` sentinel without raising; in particular `decimal(10,2)` maps to
the generic decimal type, `array<int>` to the generic text-fallback type,
and `geometry` to the unknown type. -/
theorem c7_type_reflection (base : String) (op cl : Char) (mid : List Char)
    (h1 : base.data ≠ []) (h2 : base.data.all Char.isAlpha = true)
    (h3 : isOpenBr op = true) (h4 : isCloseBr cl = true)
    (h5 : mid ≠ []) (h6 : noNL mid = true) :
    _get_column_type (base ++ String.mk (op :: (mid ++ [cl]))) = base ∧
    _get_column_type base = base ∧
    lookupType "decimal(10,2)" = .DECIMAL ∧
    lookupType "varchar(255)" = .STRINGTYPE ∧
    lookupType "array<int>" = .STRINGTYPE ∧
    lookupType "geometry" = .NULLTYPE := by
  refine ⟨?_, ?_, by decide, by decide, by decide, by decide⟩
  · have hop : Char.isAlpha op = false := by
      have : op = '(' ∨ op = '<' := by simpa [isOpenBr] using h3
      rcases this with h | h <;> subst h <;> decide
    have hdata : (base ++ String.mk (op :: (mid ++ [cl]))).data =
        base.data ++ (op :: (mid ++ [cl])) := by
      rw [String.data_append]
    have htw : (base.data ++ (op :: (mid ++ [cl]))).takeWhile Char.isAlpha = base.data :=
      takeWhile_append_cons _ _ _ h2 hop
    have hdw : (base.data ++ (op :: (mid ++ [cl]))).dropWhile Char.isAlpha =
        op :: (mid ++ [cl]) :=
      dropWhile_append_cons _ _ _ h2 hop
    unfold _get_column_type
    rw [hdata, htw, hdw]
    rw [if_neg h1]
    rw [if_neg (by simp)]
    have hnl : ¬(op :: (mid ++ [cl]) = ['\n']) := by
      intro hx
      have : mid ++ [cl] = [] := by injection hx
      simp at this
    rw [if_neg hnl, bracketTrail_closed op cl mid h3 h4 h5 h6]
    show String.mk (base.data ++ []) = base
    rw [List.append_nil]
  · have htw : base.data.takeWhile Char.isAlpha = base.data := takeWhile_all _ h2
    have hdw : base.data.dropWhile Char.isAlpha = [] := dropWhile_all _ h2
    unfold _get_column_type
    rw [htw, hdw, if_neg h1, if_pos rfl]

/-- Claim C7, witness. -/
theorem c7_witness :
    _get_column_type ("decimal" ++ String.mk ('(' :: ("10,2".data ++ [')']))) = "decimal" :=
  (c7_type_reflection "decimal" '(' ')' "10,2".data (by decide) (by decide) (by decide)
    (by decide) (by decide) (by decide)).1

/-! ## Claim C9 -/

theorem isPrefixOf_length_le (p l : List Char) (h : p.isPrefixOf l = true) :
    p.length ≤ l.length := by
  induction p generalizing l with
  | nil => simp
  | cons a as ih =>
    cases l with
    | nil => simp [List.isPrefixOf] at h
    | cons b bs =>
      simp only [List.isPrefixOf, Bool.and_eq_true] at h
      have := ih bs h.2
      simp only [List.length_cons]
      omega

/-- A valid `.+` capture split leaves at least the 11 characters of
`" not found."` after it. -/
theorem nameOk_le (t : List Char) (j : Nat) (h : nameOk t j = true) : j + 11 ≤ t.length := by
  unfold nameOk at h
  simp only [Bool.and_eq_true, decide_eq_true_eq] at h
  obtain ⟨⟨hj, hp⟩, hn⟩ := h
  have hle := isPrefixOf_length_le _ _ hp
  have h11 : notFoundTail.length = 11 := by decide
  rw [h11, List.length_drop] at hle
  omega

/-- Greedy backtracking skips split positions that admit no match. -/
theorem bestJ_of_none_above (t : List Char) (base k : Nat)
    (h : ∀ j, base < j → j ≤ base + k → nameOk t j = false) :
    bestJ t (base + k) = bestJ t base := by
  induction k with
  | zero => rfl
  | succ k ih =>
    rw [show base + (k + 1) = (base + k) + 1 from rfl, bestJ]
    rw [h ((base + k) + 1) (by omega) (by omega)]
    simp only [Bool.false_eq_true, if_false]
    exact ih (fun j hj1 hj2 => h j hj1 (by omega))

/-- On a text of the shape `name ++ " not found."` with a nonempty,
newline-free name, the greedy capture is exactly the name. -/
theorem matchName_closed (n : List Char) (h1 : n ≠ []) (h2 : noNL n = true) :
    matchName (n ++ notFoundTail) = some n := by
  have h11 : notFoundTail.length = 11 := by decide
  have hlen : (n ++ notFoundTail).length = n.length + 11 := by
    rw [List.length_append, h11]
  have hok : nameOk (n ++ notFoundTail) n.length = true := by
    unfold nameOk
    have hd : (n ++ notFoundTail).drop n.length = notFoundTail := List.drop_left _ _
    have htk : (n ++ notFoundTail).take n.length = n := List.take_left _ _
    have hpr : notFoundTail.isPrefixOf notFoundTail = true := by
      have := isPrefixOf_append_self notFoundTail []
      rwa [List.append_nil] at this
    have hpos : 1 ≤ n.length := List.length_pos.mpr h1
    rw [hd, htk]
    simp [hpr, h2, hpos]
  have habove : ∀ j, n.length < j → j ≤ n.length + 11 →
      nameOk (n ++ notFoundTail) j = false := by
    intro j hj1 hj2
    by_contra hcon
    have hok2 : nameOk (n ++ notFoundTail) j = true := by
      cases hx : nameOk (n ++ notFoundTail) j with
      | true => rfl
      | false => exact absurd hx hcon
    have := nameOk_le _ _ hok2
    rw [hlen] at this
    omega
  unfold matchName
  rw [hlen, bestJ_of_none_above _ _ _ habove]
  obtain ⟨m, hm⟩ : ∃ m, n.length = m + 1 :=
    ⟨n.length - 1, by have := List.length_pos.mpr h1; omega⟩
  rw [hm, bestJ]
  rw [hm] at hok
  rw [hok]
  show some ((n ++ notFoundTail).take (m + 1)) = some n
  rw [← hm, List.take_left]

theorem isPrefixOf_cons_false (a b : Char) (as bs : List Char) (h : (a == b) = false) :
    (a :: as).isPrefixOf (b :: bs) = false := by
  simp [List.isPrefixOf, h]

/-- Trying the pattern at the start of `Table <rest>`: the first two
keyword alternatives fail on the first character, the third matches and the
capture runs on `rest`, populating only the `table` group. -/
theorem matchAt_table (r : List Char) :
    matchAt ("Table ".data ++ r) =
      (matchName r).map (fun nm => ((none : Option (List Char)), some nm)) := by
  have hD : ("Database ".data.isPrefixOf ("Table ".data ++ r)) = false := by
    show (('D' :: "atabase ".data).isPrefixOf ('T' :: ("able ".data ++ r))) = false
    exact isPrefixOf_cons_false _ _ _ _ (by decide)
  have hN : ("Namespace ".data.isPrefixOf ("Table ".data ++ r)) = false := by
    show (('N' :: "amespace ".data).isPrefixOf ('T' :: ("able ".data ++ r))) = false
    exact isPrefixOf_cons_false _ _ _ _ (by decide)
  have hT : ("Table ".data.isPrefixOf ("Table ".data ++ r)) = true :=
    isPrefixOf_append_self _ _
  have hdrop : ("Table ".data ++ r).drop 6 = r := List.drop_left "Table ".data r
  unfold matchAt
  rw [hD, hN, hT, hdrop]
  simp

/-- Trying the pattern at the start of `Database <rest>`: the first keyword
alternative matches and the capture runs on `rest`, populating only the
`schema` group. -/
theorem matchAt_database (r : List Char) :
    matchAt ("Database ".data ++ r) =
      (matchName r).map (fun nm => (some nm, (none : Option (List Char)))) := by
  have hD : ("Database ".data.isPrefixOf ("Database ".data ++ r)) = true :=
    isPrefixOf_append_self _ _
  have hdrop : ("Database ".data ++ r).drop 9 = r := List.drop_left "Database ".data r
  unfold matchAt
  rw [hD, hdrop]
  simp

/-- `re.search` on a message of the shape `Table <name> not found.`: the
leftmost match starts at position 0 and sets only the `table` group. -/
theorem regexSearch_table (n : List Char) (h1 : n ≠ []) (h2 : noNL n = true) :
    regexSearch ("Table ".data ++ (n ++ notFoundTail)) = some (none, some n) := by
  show regexSearch ('T' :: ("able ".data ++ (n ++ notFoundTail))) = some (none, some n)
  rw [regexSearch]
  rw [show ('T' :: ("able ".data ++ (n ++ notFoundTail)) : List Char) =
    "Table ".data ++ (n ++ notFoundTail) from rfl]
  rw [matchAt_table, matchName_closed n h1 h2]
  rfl

/-- `re.search` on a message of the shape `Database <name> not found.`: the
leftmost match starts at position 0 and sets only the `schema` group. -/
theorem regexSearch_database (n : List Char) (h1 : n ≠ []) (h2 : noNL n = true) :
    regexSearch ("Database ".data ++ (n ++ notFoundTail)) = some (some n, none) := by
  show regexSearch ('D' :: ("atabase ".data ++ (n ++ notFoundTail))) = some (some n, none)
  rw [regexSearch]
  rw [show ('D' :: ("atabase ".data ++ (n ++ notFoundTail)) : List Char) =
    "Database ".data ++ (n ++ notFoundTail) from rfl]
  rw [matchAt_database, matchName_closed n h1 h2]
  rfl

/-- Claim C9: for a remote `OperationalError` whose text is exactly the
pattern `Table <name> not found.` (resp. `Database <name> not found.`) with
a nonempty newline-free name, the classifier returns `False` (classified
not-found) precisely when the captured name equals the queried table name
(resp. schema); an error naming a different table or schema yields `True`
and propagates to the caller.  A message the pattern does not match at all
also yields `True`, and a non-`OperationalError` exception is never
classified for retry. -/
theorem c9_not_found_classifier (n s t : String) (h1 : n ≠ "") (h2 : noNL n.data = true) :
    (_retry_if_data_catalog_exception true ("Table " ++ n ++ " not found.") s t = false ↔
      n = t) ∧
    (_retry_if_data_catalog_exception true ("Database " ++ n ++ " not found.") s t = false ↔
      n = s) ∧
    _retry_if_data_catalog_exception true "Some other remote failure" s t = true ∧
    _retry_if_data_catalog_exception false "Table mytable not found." s t = false := by
  have hne : n.data ≠ [] := by
    intro hx
    exact h1 (String.ext (by rw [hx]))
  refine ⟨?_, ?_, ?_, by rfl⟩
  · have hdmsg : ("Table " ++ n ++ " not found.").data =
        "Table ".data ++ (n.data ++ notFoundTail) := by
      simp [String.data_append, notFoundTail, List.append_assoc]
    unfold _retry_if_data_catalog_exception
    rw [hdmsg, regexSearch_table n.data hne h2]
    dsimp only
    by_cases hnt : n = t
    · subst hnt
      simp
    · have hdd : ¬(n.data = t.data) := fun hx => hnt (String.ext hx)
      simp [hdd, hnt]
  · have hdmsg : ("Database " ++ n ++ " not found.").data =
        "Database ".data ++ (n.data ++ notFoundTail) := by
      simp [String.data_append, notFoundTail, List.append_assoc]
    unfold _retry_if_data_catalog_exception
    rw [hdmsg, regexSearch_database n.data hne h2]
    dsimp only
    by_cases hns : n = s
    · subst hns
      simp
    · have hdd : ¬(n.data = s.data) := fun hx => hns (String.ext hx)
      simp [hdd, hns]
  · have hno : regexSearch "Some other remote failure".data = none := by decide
    unfold _retry_if_data_catalog_exception
    rw [hno]
    rfl

/-- Claim C9, witness. -/
theorem c9_witness :
    (_retry_if_data_catalog_exception true ("Table " ++ "mytable" ++ " not found.")
        "myschema" "mytable" = false ↔ "mytable" = "mytable") ∧
    (_retry_if_data_catalog_exception true ("Database " ++ "mytable" ++ " not found.")
        "myschema" "mytable" = false ↔ "mytable" = "myschema") ∧
    _retry_if_data_catalog_exception true "Some other remote failure" "myschema" "mytable" =
      true ∧
    _retry_if_data_catalog_exception false "Table mytable not found." "myschema" "mytable" =
      false :=
  c9_not_found_classifier "mytable" "myschema" "mytable" (by decide) (by decide)

end PyAthena
